import Mathlib

/-!
Shallow embedding of the core of `github.com/ucarion/saml` (file `saml.go`):
the response verifier `Verify` and the metadata extractor
`GetEntityIDCertificateAndRedirectURL`, together with the document model they
operate on.

Modelling decisions:
* Byte sequences are `List Nat`; timestamps (`time.Time`) are `Int`, with
  `t.Before u` = `t < u` and `t.After u` = `t > u`.
* The external collaborators used by the Go code - `base64.StdEncoding
  .DecodeString`, `xml.Unmarshal` into the `Response` model,
  `dsig.Signature.Verify`, `x509.ParseCertificate` and `url.Parse` - are
  opaque to this package and are modelled as fields of an `Env` record.
  A parsed `*x509.Certificate` and a parsed `*url.URL` are opaque values.
* Go's multiple-return `(Response, error)` becomes a record holding the
  returned `Response` value and an `Option` of the error kind; the foreign
  error values returned verbatim by the Go code (base64 error, xml error,
  dsig error) are represented by the corresponding kind constructors.
* `Verify` additionally records each invocation of the signature-verification
  collaborator (the argument triple it was handed), so that statements about
  which bytes reach the collaborator, and whether it is invoked at all, can
  be made; this trace is pure bookkeeping and does not alter control flow.
-/

namespace Saml

/-- A byte sequence (`[]byte` in the source). -/
abbrev Bytes := List Nat

/-- An opaque parsed x509 certificate (`*x509.Certificate`). -/
abbrev Certificate := Nat

/-- An opaque parsed URL (`*url.URL`). -/
abbrev URL := String

/-- A timestamp (`time.Time`). -/
abbrev Time := Int

/-- `t.Before(u)` on Go `time.Time`. -/
def timeBefore (t u : Time) : Prop := t < u

/-- `t.After(u)` on Go `time.Time`. -/
def timeAfter (t u : Time) : Prop := t > u

instance (t u : Time) : Decidable (timeBefore t u) := Int.decLt t u

instance (t u : Time) : Decidable (timeAfter t u) := Int.decLt u t

/-- The part of `dsig.Signature` the source reads: its `SignatureValue`. -/
structure Signature where
  signatureValue : String
deriving DecidableEq

/-- `Issuer`: the entity that issued a SAML assertion (chardata name). -/
structure Issuer where
  name : String
deriving DecidableEq

/-- `NameID`: the primary identifier of the user. -/
structure NameID where
  format : String
  value : String
deriving DecidableEq

/-- `SubjectConfirmationData`: recipient and expiry constraints. -/
structure SubjectConfirmationData where
  notOnOrAfter : Time
  recipient : String
deriving DecidableEq

/-- `SubjectConfirmation`: how the subject identity was confirmed. -/
structure SubjectConfirmation where
  subjectConfirmationData : SubjectConfirmationData
deriving DecidableEq

/-- `Subject`: the user the assertion is about. -/
structure Subject where
  nameID : NameID
  subjectConfirmation : SubjectConfirmation
deriving DecidableEq

/-- `Conditions`: the overall assertion validity window. -/
structure Conditions where
  notBefore : Time
  notOnOrAfter : Time
deriving DecidableEq

/-- `Attribute`: one key-value attribute of the user. -/
structure Attribute where
  name : String
  nameFormat : String
  value : String
deriving DecidableEq

/-- `AttributeStatement`: ordered attribute sequence. -/
structure AttributeStatement where
  attributes : List Attribute
deriving DecidableEq

/-- `Assertion`: issuer, subject, conditions and attributes. -/
structure Assertion where
  issuer : Issuer
  subject : Subject
  conditions : Conditions
  attributeStatement : AttributeStatement
deriving DecidableEq

/-- `Response`: root of a SAML login attempt. -/
structure Response where
  signature : Signature
  assertion : Assertion
deriving DecidableEq

/-- The Go zero value `Response{}` returned on every error path. -/
def emptyResponse : Response :=
  { signature := { signatureValue := "" }
  , assertion :=
    { issuer := { name := "" }
    , subject :=
      { nameID := { format := "", value := "" }
      , subjectConfirmation :=
        { subjectConfirmationData := { notOnOrAfter := 0, recipient := "" } } }
    , conditions := { notBefore := 0, notOnOrAfter := 0 }
    , attributeStatement := { attributes := [] } } }

/-- `X509Certificate`: base64-encoded ASN.1 data of a certificate
(chardata value). -/
structure X509Certificate where
  value : String
deriving DecidableEq

/-- `X509Data`: container of an x509 certificate. -/
structure X509Data where
  x509Certificate : X509Certificate
deriving DecidableEq

/-- `KeyInfo`: XML-DSig description of an x509 key. -/
structure KeyInfo where
  x509Data : X509Data
deriving DecidableEq

/-- `KeyDescriptor`: the key an identity provider signs with. -/
structure KeyDescriptor where
  keyInfo : KeyInfo
deriving DecidableEq

/-- `SingleSignOnService`: one binding of an identity provider and its
location. -/
structure SingleSignOnService where
  binding : String
  location : String
deriving DecidableEq

/-- `IDPSSODescriptor`: key descriptor plus the ordered list of
single-sign-on services. -/
structure IDPSSODescriptor where
  keyDescriptor : KeyDescriptor
  singleSignOnServices : List SingleSignOnService
deriving DecidableEq

/-- `EntityDescriptor`: identity-provider metadata root. -/
structure EntityDescriptor where
  entityID : String
  idpSSODescriptor : IDPSSODescriptor
deriving DecidableEq

/-- `SingleSignOnServiceBindingHTTPRedirect`: the HTTP-Redirect binding URI. -/
def SingleSignOnServiceBindingHTTPRedirect : String :=
  "urn:oasis:names:tc:SAML:2.0:bindings:HTTP-Redirect"

/-- The error kinds the two operations can return. Each constructor stands
for the corresponding Go error value: `decodeError` for a base64 error,
`parseError` for an `xml.Unmarshal` or `url.Parse` error,
`signatureInvalid` for an error from `dsig.Signature.Verify`,
`certificateParseError` for an `x509.ParseCertificate` error, and the
rest for the package-level sentinels `ErrResponseNotSigned`,
`ErrInvalidIssuer`, `ErrInvalidRecipient`, `ErrAssertionExpired`,
`ErrNoRedirectBinding`. -/
inductive SamlError where
  | decodeError
  | parseError
  | responseNotSigned
  | signatureInvalid
  | invalidIssuer
  | invalidRecipient
  | assertionExpired
  | certificateParseError
  | noRedirectBinding
deriving DecidableEq

/-- The external collaborators of the package, as opaque functions:
`base64.StdEncoding.DecodeString`, `xml.Unmarshal` into `Response`,
`dsig.Signature.Verify` (given the signature, the certificate and the
bytes backing the fresh decoder; `true` means no error),
`x509.ParseCertificate`, and `url.Parse`. -/
structure Env where
  base64Decode : String → Option Bytes
  xmlUnmarshalResponse : Bytes → Option Response
  dsigVerify : Signature → Certificate → Bytes → Bool
  parseCertificate : Bytes → Option Certificate
  urlParse : String → Option URL

/-- Result of `Verify`: the returned `Response` value, the returned error
(if any), and the trace of invocations of the signature-verification
collaborator (each the triple of arguments it was handed). -/
structure VerifyOutcome where
  response : Response
  error : Option SamlError
  sigCalls : List (Signature × Certificate × Bytes)
deriving DecidableEq

/-- `Verify(samlResponse, issuer, cert, recipient, now)` from `saml.go`:
base64-decode, unmarshal, reject an empty signature value, verify the
signature over a decoder re-derived from the decoded bytes, then check
issuer, recipient and the three time bounds in order. -/
def Verify (env : Env) (samlResponse issuer : String) (cert : Certificate)
    (recipient : String) (now : Time) : VerifyOutcome :=
  match env.base64Decode samlResponse with
  | none => ⟨emptyResponse, some SamlError.decodeError, []⟩
  | some data =>
    match env.xmlUnmarshalResponse data with
    | none => ⟨emptyResponse, some SamlError.parseError, []⟩
    | some response =>
      if response.signature.signatureValue = "" then
        ⟨emptyResponse, some SamlError.responseNotSigned, []⟩
      else if env.dsigVerify response.signature cert data = false then
        ⟨emptyResponse, some SamlError.signatureInvalid,
          [(response.signature, cert, data)]⟩
      else if ¬ response.assertion.issuer.name = issuer then
        ⟨emptyResponse, some SamlError.invalidIssuer,
          [(response.signature, cert, data)]⟩
      else if ¬ (response.assertion.subject.subjectConfirmation).subjectConfirmationData.recipient = recipient then
        ⟨emptyResponse, some SamlError.invalidRecipient,
          [(response.signature, cert, data)]⟩
      else if timeBefore now response.assertion.conditions.notBefore then
        ⟨emptyResponse, some SamlError.assertionExpired,
          [(response.signature, cert, data)]⟩
      else if timeAfter now response.assertion.conditions.notOnOrAfter then
        ⟨emptyResponse, some SamlError.assertionExpired,
          [(response.signature, cert, data)]⟩
      else if timeAfter now (response.assertion.subject.subjectConfirmation).subjectConfirmationData.notOnOrAfter then
        ⟨emptyResponse, some SamlError.assertionExpired,
          [(response.signature, cert, data)]⟩
      else
        ⟨response, none, [(response.signature, cert, data)]⟩

/-- Result of `GetEntityIDCertificateAndRedirectURL`: the four Go return
values `(string, *x509.Certificate, *url.URL, error)`, with `none` for a
nil pointer / nil error. -/
structure ExtractResult where
  entityID : String
  cert : Option Certificate
  url : Option URL
  err : Option SamlError
deriving DecidableEq

/-- The `for _, s := range d.IDPSSODescriptor.SingleSignOnServices` loop of
`GetEntityIDCertificateAndRedirectURL`: on the first entry whose binding is
the HTTP-Redirect URI, parse its location and return
`d.EntityID, cert, location, err`; past the end, return
`"", nil, nil, ErrNoRedirectBinding`. -/
def findRedirect (env : Env) (d : EntityDescriptor) (cert : Certificate) :
    List SingleSignOnService → ExtractResult
  | [] => ⟨"", none, none, some SamlError.noRedirectBinding⟩
  | s :: rest =>
    if s.binding = SingleSignOnServiceBindingHTTPRedirect then
      match env.urlParse s.location with
      | some location => ⟨d.entityID, some cert, some location, none⟩
      | none => ⟨d.entityID, some cert, none, some SamlError.parseError⟩
    else
      findRedirect env d cert rest

/-- `(*EntityDescriptor).GetEntityIDCertificateAndRedirectURL` from
`saml.go`: base64-decode the embedded certificate value, parse it as an
x509 certificate, then scan the single-sign-on services for the first
HTTP-Redirect binding. -/
def GetEntityIDCertificateAndRedirectURL (env : Env) (d : EntityDescriptor) :
    ExtractResult :=
  match env.base64Decode
      d.idpSSODescriptor.keyDescriptor.keyInfo.x509Data.x509Certificate.value with
  | none => ⟨"", none, none, some SamlError.decodeError⟩
  | some asn1Data =>
    match env.parseCertificate asn1Data with
    | none => ⟨"", none, none, some SamlError.certificateParseError⟩
    | some cert => findRedirect env d cert d.idpSSODescriptor.singleSignOnServices

/-! Concrete fixtures used by the witness theorems: a sample response, sample
identity-provider metadata, and a test environment whose collaborators are
total functions on a few fixed inputs. -/

/-- A sample non-empty signature. -/
def sigA : Signature := ⟨"SIGVAL"⟩

/-- A sample well-formed response: issuer `idp-a`, recipient
`https://sp.example/acs`, validity window `[100, 400)` and subject
confirmation bound `400`. -/
def respA : Response :=
  { signature := sigA
  , assertion :=
    { issuer := { name := "idp-a" }
    , subject :=
      { nameID := { format := "fmt", value := "alice" }
      , subjectConfirmation :=
        { subjectConfirmationData :=
          { notOnOrAfter := 400, recipient := "https://sp.example/acs" } } }
    , conditions := { notBefore := 100, notOnOrAfter := 400 }
    , attributeStatement := { attributes := [] } } }

/-- `respA` with the signature value emptied. -/
def respUnsigned : Response := { respA with signature := ⟨""⟩ }

/-- A test environment: `"RESP"` decodes to bytes that unmarshal to `respA`,
`"NOSIG"` to bytes that unmarshal to `respUnsigned`, `"BADXML"` to bytes that
fail to unmarshal, `"CERTB64"` to bytes that parse as certificate `7`; the
signature collaborator rejects everything; `"://bad"` fails URL parsing. -/
def envT : Env :=
  { base64Decode := fun s =>
      if s = "RESP" then some [1, 2, 3]
      else if s = "NOSIG" then some [4, 5]
      else if s = "BADXML" then some [6]
      else if s = "CERTB64" then some [9]
      else none
  , xmlUnmarshalResponse := fun b =>
      if b = [1, 2, 3] then some respA
      else if b = [4, 5] then some respUnsigned
      else none
  , dsigVerify := fun _ _ _ => false
  , parseCertificate := fun b => if b = [9] then some 7 else none
  , urlParse := fun s => if s = "://bad" then none else some s }

/-- `envT` with a signature collaborator that accepts everything. -/
def envV : Env := { envT with dsigVerify := fun _ _ _ => true }

/-- C1: for every input whose signature value is non-empty but whose
cryptographic signature verification fails, `Verify` returns the
signature-verification error - never `invalidIssuer`, `invalidRecipient` or
`assertionExpired`, whatever the issuer, recipient and time fields hold:
the signature check strictly precedes the business-rule checks. -/
theorem verify_invalid_signature_yields_signatureInvalid
    (env : Env) (samlResponse issuer : String) (cert : Certificate)
    (recipient : String) (now : Time) (data : Bytes) (r : Response)
    (hdec : env.base64Decode samlResponse = some data)
    (hxml : env.xmlUnmarshalResponse data = some r)
    (hsig : ¬ r.signature.signatureValue = "")
    (hfail : env.dsigVerify r.signature cert data = false) :
    (Verify env samlResponse issuer cert recipient now).error =
      some SamlError.signatureInvalid := by
  simp only [Verify, hdec, hxml]
  simp [hsig, hfail]

/-- C1 witness: `envT` rejects every signature, `respA`'s issuer matches, and
the failing signature wins at a concrete input. -/
theorem verify_invalid_signature_yields_signatureInvalid_w :
    (Verify envT "RESP" "idp-a" 7 "https://sp.example/acs" 200).error =
      some SamlError.signatureInvalid :=
  verify_invalid_signature_yields_signatureInvalid envT "RESP" "idp-a" 7
    "https://sp.example/acs" 200 [1, 2, 3] respA (by decide) (by decide)
    (by decide) (by decide)

/-- C2: the code accepts `now = Conditions.NotBefore` (as the claim states),
but it also accepts `now = Conditions.NotOnOrAfter =
SubjectConfirmationData.NotOnOrAfter`, where the claim requires
`AssertionExpired`: `time.Time.After` is strict, so equality at the
`NotOnOrAfter` boundaries does not count as expired in the code. `respA`
has `NotBefore = 100` and both `NotOnOrAfter` fields equal to `400`, the
signature collaborator of `envV` accepts, and issuer and recipient match. -/
theorem verify_accepts_at_notOnOrAfter_boundary :
    (Verify envV "RESP" "idp-a" 7 "https://sp.example/acs" 100).error = none ∧
      (Verify envV "RESP" "idp-a" 7 "https://sp.example/acs" 400).error = none :=
  ⟨by decide, by decide⟩

/-- C3: for every input that decodes and unmarshals but whose signature value
is the empty string, `Verify` returns `responseNotSigned` - whatever the
other fields hold - and the signature-verification collaborator is never
invoked. -/
theorem verify_unsigned_yields_responseNotSigned
    (env : Env) (samlResponse issuer : String) (cert : Certificate)
    (recipient : String) (now : Time) (data : Bytes) (r : Response)
    (hdec : env.base64Decode samlResponse = some data)
    (hxml : env.xmlUnmarshalResponse data = some r)
    (hsig : r.signature.signatureValue = "") :
    (Verify env samlResponse issuer cert recipient now).error =
        some SamlError.responseNotSigned ∧
      (Verify env samlResponse issuer cert recipient now).sigCalls = [] := by
  simp only [Verify, hdec, hxml]
  simp [hsig]

/-- C3 witness at a concrete unsigned input. -/
theorem verify_unsigned_yields_responseNotSigned_w :
    (Verify envT "NOSIG" "idp-a" 7 "https://sp.example/acs" 200).error =
        some SamlError.responseNotSigned ∧
      (Verify envT "NOSIG" "idp-a" 7 "https://sp.example/acs" 200).sigCalls = [] :=
  verify_unsigned_yields_responseNotSigned envT "NOSIG" "idp-a" 7
    "https://sp.example/acs" 200 [4, 5] respUnsigned (by decide) (by decide)
    (by decide)

/-- C7: for every input whose base64 decoding succeeds but whose decoded
bytes fail to unmarshal into the `Response` model, `Verify` returns the
parse error - a kind distinct from every other error kind - before any
signature or business-rule check: the collaborator is not invoked and the
zero response is returned. -/
theorem verify_unmarshal_failure_yields_parseError
    (env : Env) (samlResponse issuer : String) (cert : Certificate)
    (recipient : String) (now : Time) (data : Bytes)
    (hdec : env.base64Decode samlResponse = some data)
    (hxml : env.xmlUnmarshalResponse data = none) :
    (Verify env samlResponse issuer cert recipient now).error =
        some SamlError.parseError ∧
      (Verify env samlResponse issuer cert recipient now).sigCalls = [] ∧
      (Verify env samlResponse issuer cert recipient now).response =
        emptyResponse := by
  simp [Verify, hdec, hxml]

/-- C7 witness at a concrete input whose bytes fail to unmarshal. -/
theorem verify_unmarshal_failure_yields_parseError_w :
    (Verify envT "BADXML" "idp-a" 7 "https://sp.example/acs" 200).error =
        some SamlError.parseError ∧
      (Verify envT "BADXML" "idp-a" 7 "https://sp.example/acs" 200).sigCalls = [] ∧
      (Verify envT "BADXML" "idp-a" 7 "https://sp.example/acs" 200).response =
        emptyResponse :=
  verify_unmarshal_failure_yields_parseError envT "BADXML" "idp-a" 7
    "https://sp.example/acs" 200 [6] (by decide) (by decide)

/-- C4: every argument triple handed to the signature-verification
collaborator during a run of `Verify` carries exactly the base64-decoded
original input bytes (and the caller-supplied certificate) - never a
re-serialization of the parsed `Response` structure. -/
theorem verify_sig_collaborator_gets_decoded_bytes
    (env : Env) (samlResponse issuer : String) (cert : Certificate)
    (recipient : String) (now : Time) (sig : Signature) (c : Certificate)
    (b : Bytes)
    (hmem : (sig, c, b) ∈
      (Verify env samlResponse issuer cert recipient now).sigCalls) :
    env.base64Decode samlResponse = some b ∧ c = cert := by
  rcases hd : env.base64Decode samlResponse with _ | data
  · simp only [Verify, hd] at hmem
    simp at hmem
  · rcases hx : env.xmlUnmarshalResponse data with _ | r
    · simp only [Verify, hd, hx] at hmem
      simp at hmem
    · simp only [Verify, hd, hx] at hmem
      repeat' split at hmem
      all_goals simp_all

/-- C4 witness: at a concrete input, the one collaborator call carries the
decoded bytes of `"RESP"`. -/
theorem verify_sig_collaborator_gets_decoded_bytes_w :
    envT.base64Decode "RESP" = some [1, 2, 3] ∧ (7 : Certificate) = 7 :=
  verify_sig_collaborator_gets_decoded_bytes envT "RESP" "idp-a" 7
    "https://sp.example/acs" 200 sigA 7 [1, 2, 3] (by decide)

/-- Case split shared with the no-partial-result claim: a run of `Verify`
either returns no error or returns the zero response. -/
theorem verify_error_cases
    (env : Env) (samlResponse issuer : String) (cert : Certificate)
    (recipient : String) (now : Time) :
    (Verify env samlResponse issuer cert recipient now).error = none ∨
      (Verify env samlResponse issuer cert recipient now).response =
        emptyResponse := by
  rcases hd : env.base64Decode samlResponse with _ | data
  · right
    simp [Verify, hd]
  · rcases hx : env.xmlUnmarshalResponse data with _ | r
    · right
      simp [Verify, hd, hx]
    · simp only [Verify, hd, hx]
      repeat' split
      all_goals first
        | exact Or.inl rfl
        | exact Or.inr rfl

/-- C5: whenever `Verify` returns an error, the `Response` value it returns
alongside is the zero response: no partially-validated response ever
accompanies an error. -/
theorem verify_error_implies_empty_response
    (env : Env) (samlResponse issuer : String) (cert : Certificate)
    (recipient : String) (now : Time)
    (h : ¬ (Verify env samlResponse issuer cert recipient now).error = none) :
    (Verify env samlResponse issuer cert recipient now).response =
      emptyResponse :=
  (verify_error_cases env samlResponse issuer cert recipient now).resolve_left h

/-- C5 witness: at a concrete erroring input the returned response is the
zero response. -/
theorem verify_error_implies_empty_response_w :
    (Verify envT "RESP" "idp-a" 7 "https://sp.example/acs" 200).response =
      emptyResponse :=
  verify_error_implies_empty_response envT "RESP" "idp-a" 7
    "https://sp.example/acs" 200 (by decide)

/-- A sample non-Redirect single-sign-on service (HTTP-POST binding). -/
def ssoPost : SingleSignOnService :=
  ⟨"urn:oasis:names:tc:SAML:2.0:bindings:HTTP-POST", "https://idp.example/post"⟩

/-- A sample HTTP-Redirect single-sign-on service with a parseable location. -/
def ssoRedirect : SingleSignOnService :=
  ⟨SingleSignOnServiceBindingHTTPRedirect, "https://idp.example/sso"⟩

/-- A sample HTTP-Redirect single-sign-on service whose location fails URL
parsing in `envT`. -/
def ssoRedirectBad : SingleSignOnService :=
  ⟨SingleSignOnServiceBindingHTTPRedirect, "://bad"⟩

/-- Metadata with a valid certificate and a Redirect binding in second
position. -/
def descrA : EntityDescriptor :=
  ⟨"idp-a", ⟨⟨⟨⟨⟨"CERTB64"⟩⟩⟩⟩, [ssoPost, ssoRedirect]⟩⟩

/-- Metadata with a valid certificate and no Redirect binding. -/
def descrNoRedirect : EntityDescriptor :=
  ⟨"idp-b", ⟨⟨⟨⟨⟨"CERTB64"⟩⟩⟩⟩, [ssoPost]⟩⟩

/-- Metadata whose certificate value fails base64 decoding in `envT`. -/
def descrBadB64 : EntityDescriptor :=
  ⟨"idp-c", ⟨⟨⟨⟨⟨"%%%"⟩⟩⟩⟩, [ssoPost]⟩⟩

/-- Metadata whose decoded certificate bytes fail x509 parsing in `envT`. -/
def descrBadCert : EntityDescriptor :=
  ⟨"idp-d", ⟨⟨⟨⟨⟨"RESP"⟩⟩⟩⟩, [ssoPost]⟩⟩

/-- Metadata whose first Redirect binding has an unparseable location. -/
def descrBadURL : EntityDescriptor :=
  ⟨"idp-e", ⟨⟨⟨⟨⟨"CERTB64"⟩⟩⟩⟩, [ssoPost, ssoRedirectBad]⟩⟩

/-- If no entry of the list has the Redirect binding, the service loop falls
through to `ErrNoRedirectBinding`. -/
theorem findRedirect_of_find_none (env : Env) (d : EntityDescriptor)
    (cert : Certificate) (l : List SingleSignOnService)
    (h : l.find?
      (fun t => t.binding = SingleSignOnServiceBindingHTTPRedirect) = none) :
    findRedirect env d cert l =
      ⟨"", none, none, some SamlError.noRedirectBinding⟩ := by
  induction l with
  | nil => rfl
  | cons a rest ih =>
    by_cases hb : a.binding = SingleSignOnServiceBindingHTTPRedirect
    · rw [List.find?_cons_of_pos _ (by simp [hb])] at h
      simp at h
    · rw [List.find?_cons_of_neg _ (by simp [hb])] at h
      simp only [findRedirect, if_neg hb]
      exact ih h

/-- The service loop returns at the first entry with the Redirect binding,
with the outcome of parsing that entry's location. -/
theorem findRedirect_of_find_some (env : Env) (d : EntityDescriptor)
    (cert : Certificate) (l : List SingleSignOnService)
    (s : SingleSignOnService)
    (h : l.find?
      (fun t => t.binding = SingleSignOnServiceBindingHTTPRedirect) = some s) :
    findRedirect env d cert l =
      match env.urlParse s.location with
      | some u => ⟨d.entityID, some cert, some u, none⟩
      | none => ⟨d.entityID, some cert, none, some SamlError.parseError⟩ := by
  induction l with
  | nil => simp [List.find?] at h
  | cons a rest ih =>
    by_cases hb : a.binding = SingleSignOnServiceBindingHTTPRedirect
    · rw [List.find?_cons_of_pos _ (by simp [hb])] at h
      injection h with h'
      subst h'
      simp only [findRedirect, if_pos hb]
    · rw [List.find?_cons_of_neg _ (by simp [hb])] at h
      simp only [findRedirect, if_neg hb]
      exact ih h

/-- C6: for metadata whose certificate decodes and parses, if no
single-sign-on service has the HTTP-Redirect binding the extractor returns
`noRedirectBinding` after the full scan; if some service does, the extractor
selects the first one in document order and returns the entity ID, the
parsed certificate and that entry's parsed location, regardless of its
position in the list. -/
theorem extractor_binding_selection
    (env : Env) (d : EntityDescriptor) (a : Bytes) (cert : Certificate)
    (hdec : env.base64Decode
      d.idpSSODescriptor.keyDescriptor.keyInfo.x509Data.x509Certificate.value =
        some a)
    (hcert : env.parseCertificate a = some cert) :
    ((d.idpSSODescriptor.singleSignOnServices).find?
        (fun t => t.binding = SingleSignOnServiceBindingHTTPRedirect) = none →
      GetEntityIDCertificateAndRedirectURL env d =
        ⟨"", none, none, some SamlError.noRedirectBinding⟩) ∧
    ∀ s u, (d.idpSSODescriptor.singleSignOnServices).find?
        (fun t => t.binding = SingleSignOnServiceBindingHTTPRedirect) = some s →
      env.urlParse s.location = some u →
      GetEntityIDCertificateAndRedirectURL env d =
        ⟨d.entityID, some cert, some u, none⟩ := by
  constructor
  · intro hnone
    simp only [GetEntityIDCertificateAndRedirectURL, hdec, hcert]
    exact findRedirect_of_find_none env d cert _ hnone
  · intro s u hfind hurl
    simp only [GetEntityIDCertificateAndRedirectURL, hdec, hcert]
    rw [findRedirect_of_find_some env d cert _ s hfind, hurl]

/-- C6 witness: no Redirect binding yields `noRedirectBinding`; a Redirect
binding in second position yields its location. -/
theorem extractor_binding_selection_w :
    GetEntityIDCertificateAndRedirectURL envT descrNoRedirect =
        ⟨"", none, none, some SamlError.noRedirectBinding⟩ ∧
      GetEntityIDCertificateAndRedirectURL envT descrA =
        ⟨"idp-a", some 7, some "https://idp.example/sso", none⟩ :=
  ⟨(extractor_binding_selection envT descrNoRedirect [9] 7 (by decide)
      (by decide)).1 (by decide),
   (extractor_binding_selection envT descrA [9] 7 (by decide) (by decide)).2
      ssoRedirect "https://idp.example/sso" (by decide) (by decide)⟩

/-- C8: in the metadata extractor, certificate handling strictly precedes
binding selection: a certificate value that fails base64 decoding yields
`decodeError`, and decoded bytes that fail x509 parsing yield
`certificateParseError` - in both cases for every service list, including
lists with no HTTP-Redirect entry. -/
theorem extractor_certificate_checks_precede_binding
    (env : Env) (d : EntityDescriptor) :
    (env.base64Decode
        d.idpSSODescriptor.keyDescriptor.keyInfo.x509Data.x509Certificate.value =
          none →
      GetEntityIDCertificateAndRedirectURL env d =
        ⟨"", none, none, some SamlError.decodeError⟩) ∧
    ∀ a : Bytes, env.base64Decode
        d.idpSSODescriptor.keyDescriptor.keyInfo.x509Data.x509Certificate.value =
          some a →
      env.parseCertificate a = none →
      GetEntityIDCertificateAndRedirectURL env d =
        ⟨"", none, none, some SamlError.certificateParseError⟩ := by
  constructor
  · intro h
    simp [GetEntityIDCertificateAndRedirectURL, h]
  · intro a ha hp
    simp [GetEntityIDCertificateAndRedirectURL, ha, hp]

/-- C8 witness: bad base64 and bad certificate bytes on metadata whose
service list has no Redirect entry. -/
theorem extractor_certificate_checks_precede_binding_w :
    GetEntityIDCertificateAndRedirectURL envT descrBadB64 =
        ⟨"", none, none, some SamlError.decodeError⟩ ∧
      GetEntityIDCertificateAndRedirectURL envT descrBadCert =
        ⟨"", none, none, some SamlError.certificateParseError⟩ :=
  ⟨(extractor_certificate_checks_precede_binding envT descrBadB64).1
      (by decide),
   (extractor_certificate_checks_precede_binding envT descrBadCert).2
      [1, 2, 3] (by decide) (by decide)⟩

/-- C10: when the first HTTP-Redirect entry's location fails URL parsing,
the extractor returns the parse error together with the (non-empty) entity
ID and the parsed certificate - a partial result accompanies the error on
this path, unlike the other failure paths, which return zero values. -/
theorem extractor_url_parse_failure_partial_result
    (env : Env) (d : EntityDescriptor) (a : Bytes) (cert : Certificate)
    (s : SingleSignOnService)
    (hdec : env.base64Decode
      d.idpSSODescriptor.keyDescriptor.keyInfo.x509Data.x509Certificate.value =
        some a)
    (hcert : env.parseCertificate a = some cert)
    (hfind : (d.idpSSODescriptor.singleSignOnServices).find?
      (fun t => t.binding = SingleSignOnServiceBindingHTTPRedirect) = some s)
    (hurl : env.urlParse s.location = none)
    (hne : ¬ d.entityID = "") :
    GetEntityIDCertificateAndRedirectURL env d =
        ⟨d.entityID, some cert, none, some SamlError.parseError⟩ ∧
      ¬ (GetEntityIDCertificateAndRedirectURL env d).entityID = "" := by
  have h1 : GetEntityIDCertificateAndRedirectURL env d =
      ⟨d.entityID, some cert, none, some SamlError.parseError⟩ := by
    simp only [GetEntityIDCertificateAndRedirectURL, hdec, hcert]
    rw [findRedirect_of_find_some env d cert _ s hfind, hurl]
  refine ⟨h1, ?_⟩
  rw [h1]
  exact hne

/-- C10 witness: a sole Redirect binding with unparseable location returns
the entity ID and parsed certificate alongside the parse error. -/
theorem extractor_url_parse_failure_partial_result_w :
    GetEntityIDCertificateAndRedirectURL envT descrBadURL =
        ⟨"idp-e", some 7, none, some SamlError.parseError⟩ ∧
      ¬ (GetEntityIDCertificateAndRedirectURL envT descrBadURL).entityID = "" :=
  extractor_url_parse_failure_partial_result envT descrBadURL [9] 7
    ssoRedirectBad (by decide) (by decide) (by decide) (by decide) (by decide)

end Saml
